import Mathlib

/-!
Verification of the PFT (pulmonary function test) interpretation engine of
`app.py` against its specification.

The interpretation core of the application is a set of pure Python functions
over numeric fields: `classify_severity`, `interpret_spirometry`,
`interpret_lung_volumes`, `interpret_dlco` and `generate_final_impression`,
plus the analysis-tab pipeline that wires them together from the session's
measurement record.  We embed them shallowly: Python floats become `ℚ`,
optional fields become `Option ℚ`, Python truthiness (`if x:` treating both
`None` and `0.0` as false) becomes explicit `pyTruthy` / `pyTruthyOpt`
predicates, and the f-string interpolation `{v:.1f}` becomes an explicit
one-decimal rendering `fmt1` over `ℚ`.
-/

namespace PFT

/-- Python truthiness of a float: `0.0` is falsy, every other value truthy. -/
def pyTruthy (v : ℚ) : Bool := decide (v ≠ 0)

/-- Python truthiness of an optional float: `None` and `0.0` are falsy. -/
def pyTruthyOpt : Option ℚ → Bool
  | none => false
  | some v => decide (v ≠ 0)

/-- Rendering of a rational in the style of Python's `f"{v:.1f}"`: the number
of tenths is `v * 10` rounded to the nearest integer (computed as
`⌊(20 num + den) / (2 den)⌋` on the numerator and denominator), printed with
one decimal digit. -/
def fmt1 (v : ℚ) : String :=
  let n : ℤ := (20 * v.num + (v.den : ℤ)) / (2 * (v.den : ℤ))
  let s := if n < 0 then "-" else ""
  s ++ toString (n.natAbs / 10) ++ "." ++ toString (n.natAbs % 10)

/-- Embedding of `classify_severity(value, parameter)` (app.py lines 119-134):
the banded severity table is applied only when the parameter name is one of
`FVC_pred`, `FEV1_pred`, `DLCO_pred`; any other parameter name yields
`("Unknown", "normal")`. -/
def classify_severity (value : ℚ) (parameter : String) : String × String :=
  if parameter = "FVC_pred" ∨ parameter = "FEV1_pred" ∨ parameter = "DLCO_pred" then
    if value ≥ 80 then ("Normal", "normal")
    else if value ≥ 70 then ("Mild", "warning")
    else if value ≥ 60 then ("Moderate", "warning")
    else if value ≥ 50 then ("Moderately Severe", "abnormal")
    else if value ≥ 35 then ("Severe", "abnormal")
    else ("Very Severe", "abnormal")
  else ("Unknown", "normal")

/-- Embedding of `interpret_spirometry(fev1_fvc, fev1_pred, fvc_pred)`
(app.py lines 136-171).  All three arguments arrive as plain floats at every
call site (`data.get(key, 0)`), so the parameters are `ℚ`; the body's own
truthiness tests (`if fev1_pred:`, `fvc_pred and ...`, `not fev1_fvc`) are
rendered with `pyTruthy`.  Returns the pattern string and the ordered list of
interpretation lines. -/
def interpret_spirometry (fev1_fvc fev1_pred fvc_pred : ℚ) : String × List String :=
  if fev1_fvc < 70 then
    ("Obstructive",
      ["**Obstructive Pattern Detected:**",
       "- FEV1/FVC ratio is " ++ fmt1 fev1_fvc ++ "% (< 70%)"]
      ++ (if pyTruthy fev1_pred then
            ["- Severity: " ++ (classify_severity fev1_pred "FEV1_pred").1 ++
             " obstruction (FEV1 " ++ fmt1 fev1_pred ++ "% predicted)"]
          else []))
  else if pyTruthy fvc_pred ∧ fvc_pred < 80 ∧ (¬ pyTruthy fev1_fvc ∨ fev1_fvc ≥ 70) then
    ("Restrictive",
      ["**Restrictive Pattern Suggested:**",
       "- FVC is " ++ fmt1 fvc_pred ++ "% of predicted (< 80%)",
       "- FEV1/FVC ratio is preserved (" ++ fmt1 fev1_fvc ++ "% if available)",
       "- Consider lung volume measurements for confirmation"])
  else if fev1_fvc < 70 ∧ pyTruthy fvc_pred ∧ fvc_pred < 80 then
    ("Mixed",
      ["**Mixed Pattern (Obstructive + Restrictive):**",
       "- FEV1/FVC ratio is " ++ fmt1 fev1_fvc ++ "% (< 70%) - Obstruction",
       "- FVC is " ++ fmt1 fvc_pred ++ "% of predicted (< 80%) - Restriction"])
  else
    ("Normal",
      ["**Normal Spirometry Pattern:**",
       "- FEV1/FVC ratio: " ++ fmt1 fev1_fvc ++ "% (≥ 70%)"]
      ++ (if pyTruthy fvc_pred then
            ["- FVC: " ++ fmt1 fvc_pred ++ "% of predicted (≥ 80%)"] else [])
      ++ (if pyTruthy fev1_pred then
            ["- FEV1: " ++ fmt1 fev1_pred ++ "% of predicted (≥ 80%)"] else []))

/-- Embedding of `interpret_lung_volumes(tlc_pred, rv_pred)` (app.py lines
173-200).  Call sites pass `data.get(key, None)`, so both parameters are
optional; the guard `if not tlc_pred: return [...]` is the falsy test on the
optional value. -/
def interpret_lung_volumes (tlc_pred rv_pred : Option ℚ) : List String :=
  if pyTruthyOpt tlc_pred then
    let t := tlc_pred.getD 0
    (if t < 80 then
       ["**Restrictive Pattern Confirmed:**",
        "- TLC is " ++ fmt1 t ++ "% of predicted (< 80%)",
        "- Severity: " ++ (classify_severity t "TLC_pred").1 ++ " restriction"]
     else if t > 120 then
       ["**Hyperinflation Detected:**",
        "- TLC is " ++ fmt1 t ++ "% of predicted (> 120%)"]
     else
       ["**Normal Lung Volumes:**",
        "- TLC is " ++ fmt1 t ++ "% of predicted (normal range)"])
    ++ (if pyTruthyOpt rv_pred then
          let r := rv_pred.getD 0
          if r > 120 then
            ["- Increased residual volume (RV " ++ fmt1 r ++ "% predicted) - suggests air trapping"]
          else if r < 80 then
            ["- Decreased residual volume (RV " ++ fmt1 r ++ "% predicted)"]
          else
            ["- Normal residual volume (RV " ++ fmt1 r ++ "% predicted)"]
        else [])
  else ["Lung volume data not available"]

/-- Embedding of `interpret_dlco(dlco_pred)` (app.py lines 202-230). -/
def interpret_dlco (dlco_pred : Option ℚ) : List String :=
  if pyTruthyOpt dlco_pred then
    let d := dlco_pred.getD 0
    if d < 80 then
      ["**Reduced Diffusion Capacity:**",
       "- DLCO is " ++ fmt1 d ++ "% of predicted (< 80%)",
       "- Severity: " ++ (classify_severity d "DLCO_pred").1,
       "- May indicate:",
       "  - Emphysema/COPD",
       "  - Interstitial lung disease",
       "  - Pulmonary vascular disease",
       "  - Anemia (if present)"]
    else if d > 120 then
      ["**Increased Diffusion Capacity:**",
       "- DLCO is " ++ fmt1 d ++ "% of predicted (> 120%)",
       "- May indicate:",
       "  - Polycythemia",
       "  - Alveolar hemorrhage",
       "  - Left-to-right cardiac shunt"]
    else
      ["**Normal Diffusion Capacity:**",
       "- DLCO is " ++ fmt1 d ++ "% of predicted (normal range)"]
  else ["DLCO data not available"]

/-- The measurement record of the application: the session's `pft_data`
mapping, one optional float per recognized key (app.py lines 432-444 list the
keys).  An absent field models a key missing from the dictionary. -/
structure PFTMeasurement where
  fev1 : Option ℚ := none
  fev1_pred : Option ℚ := none
  fvc : Option ℚ := none
  fvc_pred : Option ℚ := none
  fev1_fvc : Option ℚ := none
  tlc : Option ℚ := none
  tlc_pred : Option ℚ := none
  rv : Option ℚ := none
  rv_pred : Option ℚ := none
  dlco : Option ℚ := none
  dlco_pred : Option ℚ := none
deriving DecidableEq

/-- Embedding of `generate_final_impression(pattern, pft_data)` (app.py lines
232-282).  Of the measurement record only `DLCO_pred` is read (via
`pft_data.get('DLCO_pred')`, a truthiness test, then the `< 80` comparison). -/
def generate_final_impression (pat : String) (pft_data : PFTMeasurement) : List String :=
  ["**Primary Pattern: " ++ pat ++ "**", ""]
  ++ (if pat = "Obstructive" then
        ["Findings consistent with obstructive lung disease."]
        ++ (if pyTruthyOpt pft_data.dlco_pred ∧ pft_data.dlco_pred.getD 0 < 80 then
              ["Reduced DLCO suggests parenchymal involvement (e.g., emphysema)."]
            else [])
        ++ ["",
            "**Differential Diagnosis:**",
            "- Chronic Obstructive Pulmonary Disease (COPD)",
            "- Asthma",
            "- Bronchiectasis",
            "- Chronic bronchitis"]
      else if pat = "Restrictive" then
        ["Findings suggest restrictive lung disease.",
         "",
         "**Differential Diagnosis:**",
         "- Interstitial lung disease (ILD)",
         "- Chest wall disorders",
         "- Neuromuscular disease",
         "- Obesity",
         "- Pleural disease"]
      else if pat = "Mixed" then
        ["Findings show both obstructive and restrictive components.",
         "",
         "**Differential Diagnosis:**",
         "- Combined pulmonary fibrosis and emphysema (CPFE)",
         "- COPD with concurrent ILD",
         "- Severe asthma with air trapping"]
      else
        ["Pulmonary function tests are within normal limits."])
  ++ ["",
      "**Recommendations:**",
      "- Clinical correlation is essential",
      "- Consider chest imaging if not already performed"]
  ++ (if pat ≠ "Normal" then
        ["- Follow-up PFTs may be indicated to assess progression or response to treatment",
         "- Consider referral to pulmonologist if not already involved"]
      else [])

/-- The combined result computed by the analysis tab. -/
structure InterpretationResult where
  pat : String
  spirometry_findings : List String
  volume_findings : List String
  diffusion_findings : List String
  impression_lines : List String
deriving DecidableEq

/-- Embedding of the analysis-tab pipeline (app.py lines 464-511): spirometry
is invoked on `data.get(key, 0)` (absent fields default to `0`), the volume
and diffusion interpreters on `data.get(key, None)`, and the final impression
on the spirometry pattern together with the measurement record. -/
def interpret (m : PFTMeasurement) : InterpretationResult :=
  let s := interpret_spirometry (m.fev1_fvc.getD 0) (m.fev1_pred.getD 0) (m.fvc_pred.getD 0)
  { pat := s.1
    spirometry_findings := s.2
    volume_findings := interpret_lung_volumes m.tlc_pred m.rv_pred
    diffusion_findings := interpret_dlco m.dlco_pred
    impression_lines := generate_final_impression s.1 m }

/-- The streamlit session state read by the analysis tab: the measurement
dictionary and the `interpretation_done` flag (app.py lines 57-61, 451). -/
structure SessionState where
  pft_data : PFTMeasurement
  interpretation_done : Bool
deriving DecidableEq

/-- The measurement record with every field absent: the empty `pft_data`
dictionary of a fresh session. -/
def emptyMeasurement : PFTMeasurement := {}

/-- Embedding of the analysis tab as a state transformer (app.py lines
448-516): it only reads the session state — when `interpretation_done` is
unset or the measurement dictionary is empty it shows a warning and computes
nothing, otherwise it computes the interpretation; in both cases it writes
nothing back to the session state. -/
def analysisTab (s : SessionState) : SessionState × Option InterpretationResult :=
  if ¬ s.interpretation_done ∨ s.pft_data = emptyMeasurement then
    (s, none)
  else
    (s, some (interpret s.pft_data))

/-- The severity band table exactly as the specification words it (§4.1):
inclusive lower bounds 80 / 70 / 60 / 50 / 35, independent of the parameter
kind.  Spec-side definition, for comparison with `classify_severity`. -/
def specSeverityBand (v : ℚ) : String :=
  if v ≥ 80 then "Normal"
  else if v ≥ 70 then "Mild"
  else if v ≥ 60 then "Moderate"
  else if v ≥ 50 then "Moderately Severe"
  else if v ≥ 35 then "Severe"
  else "Very Severe"

/-- Helper: on the `DLCO_pred` parameter kind the severity component of
`classify_severity` agrees with the specification's band table. -/
theorem classify_severity_dlco_eq_band (d : ℚ) :
    (classify_severity d "DLCO_pred").1 = specSeverityBand d := by
  unfold classify_severity specSeverityBand
  rw [if_pos (show "DLCO_pred" = "FVC_pred" ∨ "DLCO_pred" = "FEV1_pred" ∨
        "DLCO_pred" = "DLCO_pred" by decide)]
  split_ifs <;> rfl

/-- Claim C1: the specification requires the Mixed branch to be decided first,
so that `fev1_fvc = 65`, `fvc_pred = 75` yields the Mixed pattern.  The code
instead tests `fev1_fvc < 70` first and classifies this input as plain
Obstructive; its Mixed branch is dead.  This theorem evaluates the code at
the claim's regression input. -/
theorem interpret_spirometry_at_mixed_input :
    interpret_spirometry 65 60 75 =
      ("Obstructive",
        ["**Obstructive Pattern Detected:**",
         "- FEV1/FVC ratio is 65.0% (< 70%)",
         "- Severity: Moderate obstruction (FEV1 60.0% predicted)"]) := by
  decide

/-- Claim C2: the severity table is claimed to apply uniformly to all four
parameter kinds, but `classify_severity` recognizes only `FVC_pred`,
`FEV1_pred` and `DLCO_pred`: at value 65 the three supported kinds grade
Moderate while `TLC_pred` falls through to `("Unknown", "normal")`, diverging
from the specification's band table. -/
theorem classify_severity_tlc_not_uniform :
    classify_severity 65 "TLC_pred" = ("Unknown", "normal") ∧
    classify_severity 65 "FEV1_pred" = ("Moderate", "warning") ∧
    classify_severity 65 "FVC_pred" = ("Moderate", "warning") ∧
    classify_severity 65 "DLCO_pred" = ("Moderate", "warning") ∧
    specSeverityBand 65 = "Moderate" := by
  decide

/-- Claim C3: with every key field absent the entry point is claimed to emit
a neutral Normal-pattern / insufficient-data result.  Instead the analysis
pipeline defaults `FEV1/FVC` to 0, the test `0 < 70` fires, and the all-absent
measurement is classified Obstructive with a "ratio is 0.0%" finding. -/
theorem interpret_all_absent_is_obstructive :
    (interpret emptyMeasurement).pat = "Obstructive" ∧
    (interpret emptyMeasurement).spirometry_findings =
      ["**Obstructive Pattern Detected:**",
       "- FEV1/FVC ratio is 0.0% (< 70%)"] := by
  decide

/-- Claim C4: for every input triple the spirometry detector never returns
the Mixed pattern: its Mixed branch sits behind `elif` guards reachable only
when `fev1_fvc ≥ 70`, yet itself requires `fev1_fvc < 70`, so the returned
pattern always lies in Normal / Obstructive / Restrictive. -/
theorem interpret_spirometry_never_mixed (f p v : ℚ) :
    (interpret_spirometry f p v).1 ≠ "Mixed" ∧
    ((interpret_spirometry f p v).1 = "Normal" ∨
     (interpret_spirometry f p v).1 = "Obstructive" ∨
     (interpret_spirometry f p v).1 = "Restrictive") := by
  by_cases h1 : f < 70
  · have hp : (interpret_spirometry f p v).1 = "Obstructive" := by
      unfold interpret_spirometry
      rw [if_pos h1]
    rw [hp]
    exact ⟨by decide, Or.inr (Or.inl rfl)⟩
  · by_cases h2 : pyTruthy v = true ∧ v < 80 ∧ (¬ pyTruthy f = true ∨ f ≥ 70)
    · have hp : (interpret_spirometry f p v).1 = "Restrictive" := by
        unfold interpret_spirometry
        rw [if_neg h1, if_pos h2]
      rw [hp]
      exact ⟨by decide, Or.inr (Or.inr rfl)⟩
    · have h3 : ¬(f < 70 ∧ pyTruthy v = true ∧ v < 80) := fun hc => h1 hc.1
      have hp : (interpret_spirometry f p v).1 = "Normal" := by
        unfold interpret_spirometry
        rw [if_neg h1, if_neg h2, if_neg h3]
      rw [hp]
      exact ⟨by decide, Or.inl rfl⟩

/-- Claim C5: for a present `tlc_pred < 80` the volume interpreter does emit
the "Restrictive Pattern Confirmed" finding, but the accompanying severity is
not drawn from the band table: `classify_severity` does not recognize
`TLC_pred`, so `tlc_pred = 65` reads "Severity: Unknown restriction" where
the specification's table gives Moderate. -/
theorem interpret_lung_volumes_severity_unknown :
    interpret_lung_volumes (some 65) none =
      ["**Restrictive Pattern Confirmed:**",
       "- TLC is 65.0% of predicted (< 80%)",
       "- Severity: Unknown restriction"] ∧
    specSeverityBand 65 = "Moderate" := by
  decide

/-- Claim C6: for every present `dlco_pred < 80` the diffusion interpreter
emits the reduced-diffusion finding, a severity equal to the specification's
band table applied to the value, and exactly the fixed four-item differential
list. -/
theorem interpret_dlco_reduced_branch (d : ℚ) (hne : d ≠ 0) (hlt : d < 80) :
    interpret_dlco (some d) =
      ["**Reduced Diffusion Capacity:**",
       "- DLCO is " ++ fmt1 d ++ "% of predicted (< 80%)",
       "- Severity: " ++ specSeverityBand d,
       "- May indicate:",
       "  - Emphysema/COPD",
       "  - Interstitial lung disease",
       "  - Pulmonary vascular disease",
       "  - Anemia (if present)"] := by
  unfold interpret_dlco
  rw [if_pos (show pyTruthyOpt (some d) = true by simp [pyTruthyOpt, hne])]
  simp only [Option.getD_some]
  rw [if_pos hlt, classify_severity_dlco_eq_band]

/-- Witness for claim C6 at `dlco_pred = 60`: the severity text reads
Moderate and the four differential items are present. -/
theorem interpret_dlco_reduced_branch_witness :
    (60 : ℚ) ≠ 0 ∧ (60 : ℚ) < 80 ∧
    interpret_dlco (some 60) =
      ["**Reduced Diffusion Capacity:**",
       "- DLCO is 60.0% of predicted (< 80%)",
       "- Severity: Moderate",
       "- May indicate:",
       "  - Emphysema/COPD",
       "  - Interstitial lung disease",
       "  - Pulmonary vascular disease",
       "  - Anemia (if present)"] := by
  refine ⟨by norm_num, by norm_num, ?_⟩
  rw [interpret_dlco_reduced_branch 60 (by norm_num) (by norm_num)]
  decide

/-- Claim C7: whenever `tlc_pred` is absent the volume interpreter returns
the single "not available" finding, whatever `rv_pred` is: no RV line ever
appears without TLC context. -/
theorem interpret_lung_volumes_absent_tlc (rv : Option ℚ) :
    interpret_lung_volumes none rv = ["Lung volume data not available"] := rfl

/-- Claim C8: for every pattern string and measurement, the final impression
always contains the clinical-correlation and consider-imaging recommendation
lines, and it contains the follow-up-PFTs and pulmonologist-referral lines
exactly when the pattern is not Normal. -/
theorem generate_final_impression_recommendations (p : String) (m : PFTMeasurement) :
    "- Clinical correlation is essential" ∈ generate_final_impression p m ∧
    "- Consider chest imaging if not already performed" ∈ generate_final_impression p m ∧
    (("- Follow-up PFTs may be indicated to assess progression or response to treatment"
        ∈ generate_final_impression p m ∧
      "- Consider referral to pulmonologist if not already involved"
        ∈ generate_final_impression p m) ↔ p ≠ "Normal") := by
  refine ⟨?_, ?_, ?_, ?_⟩
  · unfold generate_final_impression
    simp [List.mem_append]
  · unfold generate_final_impression
    simp [List.mem_append]
  · rintro ⟨hmem, -⟩ hp
    subst hp
    simp [generate_final_impression] at hmem
  · intro hp
    constructor <;>
      · unfold generate_final_impression
        rw [if_pos hp]
        simp [List.mem_append]

/-- Claim C9: the analysis tab is stateless and deterministic: it never
writes the session state, and running it a second time on the state left by
the first run yields exactly the same state and result. -/
theorem analysisTab_stateless (s : SessionState) :
    (analysisTab s).1 = s ∧ analysisTab (analysisTab s).1 = analysisTab s := by
  have h : (analysisTab s).1 = s := by
    unfold analysisTab
    split_ifs <;> rfl
  exact ⟨h, by rw [h]⟩

/-- Claim C10: a literal `0.0` is indistinguishable from an absent field:
the volume and diffusion interpreters return their "not available" finding on
`some 0` exactly as on `none`, and the spirometry interpreter suppresses the
severity line when `fev1_pred = 0` and never takes the restrictive branch
when `fvc_pred = 0`. -/
theorem zero_indistinguishable_from_absent :
    (∀ rv, interpret_lung_volumes (some 0) rv = interpret_lung_volumes none rv) ∧
    interpret_dlco (some 0) = interpret_dlco none ∧
    (∀ f v : ℚ, f < 70 →
      (interpret_spirometry f 0 v).2 =
        ["**Obstructive Pattern Detected:**",
         "- FEV1/FVC ratio is " ++ fmt1 f ++ "% (< 70%)"]) ∧
    (∀ f p : ℚ, (interpret_spirometry f p 0).1 ≠ "Restrictive") := by
  refine ⟨fun rv => rfl, rfl, ?_, ?_⟩
  · intro f v hf
    unfold interpret_spirometry
    rw [if_pos hf]
    simp [pyTruthy]
  · intro f p
    by_cases h1 : f < 70
    · have hp : (interpret_spirometry f p 0).1 = "Obstructive" := by
        unfold interpret_spirometry
        rw [if_pos h1]
      rw [hp]
      decide
    · have h2 : ¬(pyTruthy (0 : ℚ) = true ∧ (0 : ℚ) < 80 ∧
          (¬ pyTruthy f = true ∨ f ≥ 70)) := by
        rintro ⟨hc, -⟩
        revert hc
        decide
      have h3 : ¬(f < 70 ∧ pyTruthy (0 : ℚ) = true ∧ (0 : ℚ) < 80) :=
        fun hc => h1 hc.1
      have hp : (interpret_spirometry f p 0).1 = "Normal" := by
        unfold interpret_spirometry
        rw [if_neg h1, if_neg h2, if_neg h3]
      rw [hp]
      decide

/-- Witness for claim C10: concrete instances of each conjunct, at
`rv_pred = 110`, `fev1_fvc = 65` with `fev1_pred = 0`, and `fvc_pred = 0`. -/
theorem zero_indistinguishable_from_absent_witness :
    interpret_lung_volumes (some 0) (some 110) = ["Lung volume data not available"] ∧
    (65 : ℚ) < 70 ∧
    (interpret_spirometry 65 0 90).2 =
      ["**Obstructive Pattern Detected:**",
       "- FEV1/FVC ratio is 65.0% (< 70%)"] ∧
    (interpret_spirometry 75 85 0).1 ≠ "Restrictive" := by
  refine ⟨?_, by norm_num, ?_, ?_⟩
  · rw [zero_indistinguishable_from_absent.1 (some 110)]
    rfl
  · rw [zero_indistinguishable_from_absent.2.2.1 65 90 (by norm_num)]
    decide
  · exact zero_indistinguishable_from_absent.2.2.2 75 85

end PFT
